import Mathlib

/-!
Shallow embedding of the particle lifecycle/animation engine of
`src/js/main.js` (Viviani Curve Lights).  JavaScript numbers are modelled
as rationals (`ℚ`); the trigonometric path-family A is modelled over `ℝ`.
Calls to `Math.random()` are modelled as explicit oracle arguments: every
value the source draws from the RNG is an extra input of the embedded
function.
-/

/-- JavaScript truncation toward zero, as used by the `%` operator. -/
def jsTrunc (x : ℚ) : ℤ := if 0 ≤ x then ⌊x⌋ else ⌈x⌉

/-- JavaScript remainder operator `a % b` (sign follows the dividend). -/
def jsMod (a b : ℚ) : ℚ := a - b * (jsTrunc (a / b))

/-- A 3D vector with rational coordinates (embeds `THREE.Vector3`). -/
structure Vec3 where
  x : ℚ
  y : ℚ
  z : ℚ
  deriving DecidableEq, Repr

/-- Componentwise vector addition (`THREE.Vector3.add`). -/
def Vec3.add (a b : Vec3) : Vec3 := ⟨a.x + b.x, a.y + b.y, a.z + b.z⟩

/-- The interpolated curve handed to every particle
(`curvePath = new THREE.CatmullRomCurve3(points, isCurveClosed)`),
abstracted by its two sampling functions and the closed flag. -/
structure CurvePath where
  pointAt : ℚ → Vec3
  tangentAt : ℚ → Vec3
  closed : Bool

/-- The `params.lifecycle` configuration object. -/
structure LifecycleParams where
  enabled : Bool
  fadeInTime : ℚ
  stableTime : ℚ
  fadeOutTime : ℚ
  randomOffset : ℚ
  deriving DecidableEq, Repr

/-- The `params.glow` configuration object. -/
structure GlowParams where
  trailLength : ℕ
  speedFactor : ℚ
  boldness : ℚ
  lineWidth : ℚ
  deriving DecidableEq, Repr

/-- The `params.weldingSpark` configuration object. -/
structure WeldingSparkParams where
  trailLength : ℕ
  speedFactor : ℚ
  sparkSize : ℚ
  sparkHeat : ℚ
  pathFollowing : ℚ
  deriving DecidableEq, Repr

/-- The `params.comet` configuration object. -/
structure CometParams where
  headSize : ℚ
  tailLength : ℕ
  tailWidth : ℚ
  tailFade : ℚ
  glowIntensity : ℚ
  speedFactor : ℚ
  colorMode : String
  cometColor : String
  deriving DecidableEq, Repr

/-- The global `params` object (the fields the core engine reads). -/
structure Params where
  particleScatterRadius : ℚ
  lifecycle : LifecycleParams
  glow : GlowParams
  weldingSpark : WeldingSparkParams
  comet : CometParams
  currentTheme : String
  colorMode : String
  singleColorValue : String
  paletteColor1 : String
  paletteColor1Enabled : Bool
  paletteColor2 : String
  paletteColor2Enabled : Bool
  paletteColor3 : String
  paletteColor3Enabled : Bool
  paletteColor4 : String
  paletteColor4Enabled : Bool
  paletteColor5 : String
  paletteColor5Enabled : Bool
  deriving DecidableEq, Repr

/-- The `params` literal of `src/js/main.js` (the engine-relevant fields). -/
def defaultParams : Params where
  particleScatterRadius := 11/10
  lifecycle := { enabled := true, fadeInTime := 9/100, stableTime := 9/10,
                 fadeOutTime := 2/10, randomOffset := 1 }
  glow := { trailLength := 22, speedFactor := 7/10000, boldness := 1, lineWidth := 2 }
  weldingSpark := { trailLength := 16, speedFactor := 6/1000, sparkSize := 1/2,
                    sparkHeat := 8/10, pathFollowing := 7/10 }
  comet := { headSize := 1, tailLength := 20, tailWidth := 8/10, tailFade := 8/10,
             glowIntensity := 8/10, speedFactor := 5/1000,
             colorMode := "single", cometColor := "#80ffff" }
  currentTheme := "dark"
  colorMode := "palette"
  singleColorValue := "#ffffff"
  paletteColor1 := "#667fff"
  paletteColor1Enabled := true
  paletteColor2 := "#734ef9"
  paletteColor2Enabled := true
  paletteColor3 := "#ffc21a"
  paletteColor3Enabled := true
  paletteColor4 := "#b39eff"
  paletteColor4Enabled := true
  paletteColor5 := "#007bff"
  paletteColor5Enabled := true

/-- The stage computation of `ParticleSystem.calculateLifecycleAlpha`
(main.js lines 178-190) as a function of the normalized lifecycle
position `p`: fade-in ramp, hold, fade-out ramp, clamped to [0,1]. -/
def lifecycleAlphaAt (fadeInTime stableTime fadeOutTime p : ℚ) : ℚ :=
  let alpha : ℚ :=
    if p < fadeInTime then
      p / fadeInTime
    else if p ≥ fadeInTime + stableTime then
      1 - (p - fadeInTime - stableTime) / fadeOutTime
    else
      1
  max 0 (min 1 alpha)

/-- `ParticleSystem.calculateLifecycleAlpha` (main.js lines 163-191), as a
function of the particle's `lifecycleOffset` and `currentT` fields.  When
the lifecycle feature is disabled it returns 1.0 immediately; otherwise
the alpha is computed from `(lifecycleOffset + currentT) % 1.0`. -/
def calculateLifecycleAlpha (ps : Params) (lifecycleOffset currentT : ℚ) : ℚ :=
  if ps.lifecycle.enabled = false then 1
  else
    lifecycleAlphaAt ps.lifecycle.fadeInTime ps.lifecycle.stableTime
      ps.lifecycle.fadeOutTime (jsMod (lifecycleOffset + currentT) 1)

/-- A scatter-offset draw: each component is
`(Math.random() - 0.5) * 2 * radius`, where `r` packs the three raw
`Math.random()` values in [0,1). -/
def scatterVec (r : Vec3) (radius : ℚ) : Vec3 :=
  ⟨(r.x - 1/2) * 2 * radius, (r.y - 1/2) * 2 * radius, (r.z - 1/2) * 2 * radius⟩

/-- The per-sample trail fade ramp written by `GlowParticle.update`
(main.js lines 445-449): `alphas[i] = 1.0 - (i / Math.max(1, trailLength - 1))`
for every slot, then `alphas[0] = 1.0` whenever the trail is non-empty
(the source repeats that head write for `trailLength <= 1`). -/
def trailRamp (trailLength : ℕ) : List ℚ :=
  let base := (List.range trailLength).map
    (fun (i : ℕ) => 1 - (i : ℚ) / max 1 ((trailLength : ℚ) - 1))
  if trailLength > 0 then base.set 0 1 else base

/-- State of one `GlowParticle` (main.js lines 342-460): the motion fields,
the trail's position and alpha buffers, the open-curve reset flag and the
`uLifecycleAlpha` shader uniform written by the manager. -/
structure GlowParticle where
  currentT : ℚ
  baseSpeedRandomness : ℚ
  speed : ℚ
  lifecycleOffset : ℚ
  justReset : Bool
  scatterOffset : Vec3
  trailLength : ℕ
  trailPositions : List Vec3
  trailAlphas : List ℚ
  uLifecycleAlpha : ℚ

/-- The `GlowParticle` constructor (main.js lines 343-398).  Oracle inputs:
`rT` for the initial `currentT`, `rSpeed` for the speed multiplier, `rOff`
for the lifecycle offset and `rScatter` for the scatter offset, each a raw
`Math.random()` value in [0,1). -/
def GlowParticle.create (ps : Params) (path : CurvePath)
    (rT rSpeed rOff : ℚ) (rScatter : Vec3) : GlowParticle :=
  let base := 1/2 + rSpeed * 1
  let scatter := scatterVec rScatter ps.particleScatterRadius
  let segmentDeltaT : ℚ := 1/1000
  { currentT := rT
    baseSpeedRandomness := base
    speed := ps.glow.speedFactor * base
    lifecycleOffset := rOff * ps.lifecycle.randomOffset
    justReset := false
    scatterOffset := scatter
    trailLength := ps.glow.trailLength
    trailPositions := (List.range ps.glow.trailLength).map (fun (i : ℕ) =>
      let t := jsMod (jsMod (rT - (i : ℚ) * segmentDeltaT) 1 + 1) 1
      Vec3.add (path.pointAt t) scatter)
    trailAlphas := trailRamp ps.glow.trailLength
    uLifecycleAlpha := 1 }

/-- `GlowParticle.update` (main.js lines 400-453).  The oracle `rScatter`
packs the three `Math.random()` draws of the wrap-reset scatter offset; it
is consumed only on the tick where `currentT` crosses 1.  The shift loop
over the fixed-size position buffer is modelled by consing the new head
and truncating back to `trailLength`. -/
def GlowParticle.update (ps : Params) (path : CurvePath) (rScatter : Vec3)
    (p : GlowParticle) : GlowParticle :=
  let speed := ps.glow.speedFactor * p.baseSpeedRandomness
  let t := p.currentT + speed
  let wrapped :=
    if t ≥ 1 then
      let scatter := scatterVec rScatter ps.particleScatterRadius
      let jr := if path.closed = false then true else p.justReset
      let startPos := Vec3.add (path.pointAt 0) scatter
      ((0 : ℚ), scatter, jr, List.replicate p.trailLength startPos)
    else
      (t, p.scatterOffset, p.justReset, p.trailPositions)
  let t2 := wrapped.1
  let scatter := wrapped.2.1
  let newHeadPos := Vec3.add (path.pointAt t2) scatter
  { p with
    currentT := t2
    speed := speed
    scatterOffset := scatter
    justReset := wrapped.2.2.1
    trailPositions := (newHeadPos :: wrapped.2.2.2).take p.trailLength
    trailAlphas := trailRamp p.trailLength }

/-- The open-path seam correction of `GlowParticleSystem.update`
(main.js lines 240-270), applied to a particle after its motion update:
computes the lifecycle alpha, multiplies in the seam fade-out/fade-in
ramps when the path is open, clears the reset flag once past the fade-in
window, and writes the result into the `uLifecycleAlpha` uniform. -/
def glowApplyLifecycle (ps : Params) (path : CurvePath)
    (p : GlowParticle) : GlowParticle :=
  if ps.lifecycle.enabled then
    let finalAlpha := calculateLifecycleAlpha ps p.lifecycleOffset p.currentT
    if path.closed = false then
      let fadeOutTime := ps.lifecycle.fadeOutTime
      let fadeInTime := ps.lifecycle.fadeInTime
      let fadeOutStartT := 1 - fadeOutTime
      if p.currentT > fadeOutStartT then
        let fadeOutProgress := (p.currentT - fadeOutStartT) / fadeOutTime
        { p with uLifecycleAlpha := finalAlpha * (1 - fadeOutProgress) }
      else if p.justReset ∧ p.currentT < fadeInTime then
        let fadeInProgress := p.currentT / fadeInTime
        let p2 := { p with uLifecycleAlpha := finalAlpha * fadeInProgress }
        if fadeInProgress ≥ 1 then { p2 with justReset := false } else p2
      else if p.justReset then
        { p with justReset := false, uLifecycleAlpha := finalAlpha }
      else
        { p with uLifecycleAlpha := finalAlpha }
    else
      { p with uLifecycleAlpha := finalAlpha }
  else
    p

/-- The per-particle body of `GlowParticleSystem.update` (main.js lines
234-272): tick the particle's motion, then apply the lifecycle multiplier
with the open-path correction. -/
def glowSystemUpdateParticle (ps : Params) (path : CurvePath) (rScatter : Vec3)
    (p : GlowParticle) : GlowParticle :=
  glowApplyLifecycle ps path (GlowParticle.update ps path rScatter p)

/-- One live spark of the `WeldingSpark` pool: the slot's entries in the
`positions`, `sizes`, `sparkLives` and `velocities` arrays. -/
structure Spark where
  pos : Vec3
  size : ℚ
  life : ℚ
  vel : Vec3
  deriving DecidableEq, Repr

/-- Per-emitted-spark randomness of `WeldingSpark.emitSparks`.  The spark's
launch velocity (main.js lines 617-642) mixes the curve tangent with a
uniformly random spherical direction and renormalizes, which needs
square roots and trigonometry; that whole draw is abstracted as the oracle
field `vel`.  `sizeR` is the raw `Math.random()` of the size draw. -/
structure SparkRand where
  vel : Vec3
  sizeR : ℚ
  deriving DecidableEq, Repr

/-- The emission loop of `WeldingSpark.emitSparks` (main.js lines 614-656):
append one spark per oracle entry at the emission origin, but break as
soon as the live count has reached the pool capacity
(`activeParticles >= positions.length / 3`), silently dropping the rest. -/
def emitLoop (cap : ℕ) (sparkSize : ℚ) (origin : Vec3) :
    List SparkRand → List Spark → List Spark
  | [], sparks => sparks
  | r :: rs, sparks =>
    if sparks.length ≥ cap then sparks
    else emitLoop cap sparkSize origin rs
      (sparks ++ [{ pos := origin,
                    size := (2/10 + r.sizeR * 8/10) * sparkSize,
                    life := 1,
                    vel := r.vel }])

/-- State of one `WeldingSpark` guide particle (main.js lines 553-730).
The pool arrays (`positions`, `sizes`, `sparkLives`, `velocities`) are
modelled by the list of their first `activeParticles` slots — the live
prefix, which is exactly the draw range handed to the renderer; slots past
the draw range are never read or drawn. -/
structure WeldingSpark where
  currentT : ℚ
  baseSpeedRandomness : ℚ
  speed : ℚ
  lifecycleOffset : ℚ
  scatterOffset : Vec3
  maxLife : ℕ
  sparks : List Spark
  drawRange : ℕ
  lifecycleAlpha : ℚ

/-- Pool capacity: the constructor allocates `maxParticles = maxLife * 3`
slots (main.js line 571), and emission stops at
`positions.length / 3 = maxParticles`. -/
def WeldingSpark.capacity (p : WeldingSpark) : ℕ := p.maxLife * 3

/-- `WeldingSpark.emitSparks` (main.js lines 604-660).  Oracles: `rCount`
for the burst size `Math.floor(2 + Math.random() * 5)` and `rs` for the
per-spark draws.  Updates the draw range to the new live count. -/
def WeldingSpark.emitSparks (ps : Params) (path : CurvePath)
    (rCount : ℚ) (rs : List SparkRand) (p : WeldingSpark) : WeldingSpark :=
  let origin := Vec3.add (path.pointAt p.currentT) p.scatterOffset
  let numNewSparks := ⌊2 + rCount * 5⌋.toNat
  let sparks := emitLoop p.capacity ps.weldingSpark.sparkSize origin
    (rs.take numNewSparks) p.sparks
  { p with sparks := sparks, drawRange := sparks.length }

/-- One slot of the spark-expiry loop (main.js lines 684-713): decrement
the life by `0.03 + Math.random() * 0.02` (oracle `d`); if the spark
stays alive, apply gravity to its velocity, integrate the velocity into
the position, decay the size, and keep it; otherwise free the slot. -/
def updateSparkData (d : ℚ) (s : Spark) : Option Spark :=
  let life := s.life - (3/100 + d * 2/100)
  if life > 0 then
    let vel : Vec3 := ⟨s.vel.x, s.vel.y - 1/1000, s.vel.z⟩
    some { pos := Vec3.add s.pos vel,
           size := s.size * 98/100,
           life := life,
           vel := vel }
  else
    none

/-- The compaction performed by the spark-expiry loop starting at slot
`i`: every surviving slot (in index order) is copied forward to the next
free index (`if (i !== aliveCount) { ... }`, main.js lines 702-710), so
the live prefix after the loop is the in-order list of updated
survivors. -/
def stableCompactFrom (ds : ℕ → ℚ) : ℕ → List Spark → List Spark
  | _, [] => []
  | i, s :: rest =>
    match updateSparkData (ds i) s with
    | some s2 => s2 :: stableCompactFrom ds (i + 1) rest
    | none => stableCompactFrom ds (i + 1) rest

/-- The whole expiry/compaction pass of `WeldingSpark.update` (main.js
lines 683-716). -/
def stableCompact (ds : ℕ → ℚ) (sparks : List Spark) : List Spark :=
  stableCompactFrom ds 0 sparks

/-- `WeldingSpark.update` (main.js lines 662-723): advance the guide along
the curve (wrapping `currentT` and redrawing the scatter offset at 1),
emit a burst with probability 0.3 (`Math.random() > 0.7`, oracle
`rEmitGate`), then run the expiry/compaction loop with per-slot life
decrements `ds` and set the draw range to the new live count. -/
def WeldingSpark.update (ps : Params) (path : CurvePath) (rScatter : Vec3)
    (rEmitGate rCount : ℚ) (rs : List SparkRand) (ds : ℕ → ℚ)
    (p : WeldingSpark) : WeldingSpark :=
  let speed := ps.weldingSpark.speedFactor * p.baseSpeedRandomness
  let t := p.currentT + speed
  let moved :=
    if t ≥ 1 then ((0 : ℚ), scatterVec rScatter ps.particleScatterRadius)
    else (t, p.scatterOffset)
  let p1 := { p with currentT := moved.1, speed := speed, scatterOffset := moved.2 }
  let p2 := if rEmitGate > 7/10 then p1.emitSparks ps path rCount rs else p1
  let sparks := stableCompact ds p2.sparks
  { p2 with sparks := sparks, drawRange := sparks.length }

/-- The `WeldingSpark` constructor (main.js lines 554-602): draw the motion
fields (speed multiplier `0.5 + Math.random() * 1.5`), start with an empty
pool of capacity `trailLength * 3`, then perform one initial emission. -/
def WeldingSpark.create (ps : Params) (path : CurvePath)
    (rT rSpeed rOff : ℚ) (rScatter : Vec3)
    (rCount : ℚ) (rs : List SparkRand) : WeldingSpark :=
  let base := 1/2 + rSpeed * (3/2)
  let p : WeldingSpark :=
    { currentT := rT
      baseSpeedRandomness := base
      speed := ps.weldingSpark.speedFactor * base
      lifecycleOffset := rOff * ps.lifecycle.randomOffset
      scatterOffset := scatterVec rScatter ps.particleScatterRadius
      maxLife := ps.weldingSpark.trailLength
      sparks := []
      drawRange := 0
      lifecycleAlpha := 1 }
  p.emitSparks ps path rCount rs

/-- The per-particle body of `WeldingSparkParticleSystem.update` (main.js
lines 522-532): tick the particle, then write the plain lifecycle alpha
into the `lifecycleAlpha` uniform — no open-path correction. -/
def sparkSystemUpdateParticle (ps : Params) (path : CurvePath) (rScatter : Vec3)
    (rEmitGate rCount : ℚ) (rs : List SparkRand) (ds : ℕ → ℚ)
    (p : WeldingSpark) : WeldingSpark :=
  let p1 := p.update ps path rScatter rEmitGate rCount rs ds
  if ps.lifecycle.enabled then
    { p1 with lifecycleAlpha := calculateLifecycleAlpha ps p1.lifecycleOffset p1.currentT }
  else
    p1

/-- State of one `Comet` particle (main.js lines 966-1171): motion fields,
head position, main tail buffers, the number of extra wide-tail lines and
the `lifecycleAlpha` uniform value (the manager writes the same value into
the head, tail and every wide-tail material). -/
structure Comet where
  currentT : ℚ
  baseSpeedRandomness : ℚ
  speed : ℚ
  lifecycleOffset : ℚ
  scatterOffset : Vec3
  tailLength : ℕ
  headPosition : Vec3
  tailPositions : List Vec3
  tailFades : List ℚ
  wideTailCount : ℕ
  lifecycleAlpha : ℚ

/-- `Comet.updateTailGeometry` (main.js lines 1131-1153): resample the
curve at `currentT - i * tailSegmentLength` (wrapped into [0,1) by
`((t % 1) + 1) % 1`), add the scatter offset and the strand's lateral
offset vector. -/
def cometTailGeometry (path : CurvePath) (currentT : ℚ) (scatter : Vec3)
    (tailLength : ℕ) (tailSegmentLength : ℚ) (offsetVector : Vec3) : List Vec3 :=
  (List.range tailLength).map (fun (i : ℕ) =>
    let t := jsMod (jsMod (currentT - (i : ℚ) * tailSegmentLength) 1 + 1) 1
    Vec3.add (Vec3.add (path.pointAt t) scatter) offsetVector)

/-- The `Comet` constructor (main.js lines 967-1083): speed multiplier
`0.5 + Math.random() * 1.0`, initial head at the scattered curve sample,
tail buffers filled with the head position and the fade ramp
`1.0 - (i / Math.max(1, tailLength - 1))`, and
`Math.floor(tailWidth * 2)` extra wide-tail lines. -/
def Comet.create (ps : Params) (path : CurvePath)
    (rT rSpeed rOff : ℚ) (rScatter : Vec3) : Comet :=
  let base := 1/2 + rSpeed * 1
  let scatter := scatterVec rScatter ps.particleScatterRadius
  let initialPos := Vec3.add (path.pointAt rT) scatter
  { currentT := rT
    baseSpeedRandomness := base
    speed := ps.comet.speedFactor * base
    lifecycleOffset := rOff * ps.lifecycle.randomOffset
    scatterOffset := scatter
    tailLength := ps.comet.tailLength
    headPosition := initialPos
    tailPositions := List.replicate ps.comet.tailLength initialPos
    tailFades := (List.range ps.comet.tailLength).map
      (fun (i : ℕ) => 1 - (i : ℚ) / max 1 ((ps.comet.tailLength : ℚ) - 1))
    wideTailCount := ⌊ps.comet.tailWidth * 2⌋.toNat
    lifecycleAlpha := 1 }

/-- `Comet.update` (main.js lines 1085-1128): advance `currentT` (wrap and
redraw the scatter offset at 1), move the head to the scattered curve
sample, and rebuild the main tail with segment length `speed * 0.95`.
(The wide-tail strands rebuild with the same segment lengths and their
per-strand lateral offsets via `cometTailGeometry`.) -/
def Comet.update (ps : Params) (path : CurvePath) (rScatter : Vec3)
    (p : Comet) : Comet :=
  let speed := ps.comet.speedFactor * p.baseSpeedRandomness
  let t := p.currentT + speed
  let moved :=
    if t ≥ 1 then ((0 : ℚ), scatterVec rScatter ps.particleScatterRadius)
    else (t, p.scatterOffset)
  let t2 := moved.1
  let scatter := moved.2
  let headPos := Vec3.add (path.pointAt t2) scatter
  let tailSegmentLength := speed * 95/100
  { p with
    currentT := t2
    speed := speed
    scatterOffset := scatter
    headPosition := headPos
    tailPositions := cometTailGeometry path t2 scatter p.tailLength
      tailSegmentLength ⟨0, 0, 0⟩ }

/-- The per-particle body of `CometParticleSystem.update` (main.js lines
825-850): tick the particle, then write the plain lifecycle alpha into the
head, tail and wide-tail uniforms — no open-path correction. -/
def cometSystemUpdateParticle (ps : Params) (path : CurvePath) (rScatter : Vec3)
    (p : Comet) : Comet :=
  let p1 := p.update ps path rScatter
  if ps.lifecycle.enabled then
    { p1 with lifecycleAlpha := calculateLifecycleAlpha ps p1.lifecycleOffset p1.currentT }
  else
    p1

/-- A color value written into a material uniform: either a hex/CSS string
(`color.set('#...')`) or a random-hue HSL triple (`color.setHSL(...)`). -/
inductive JsColor where
  | hex (s : String)
  | hsl (h s l : ℚ)
  deriving DecidableEq, Repr

/-- The `activePalette` array built by the palette branches (main.js lines
322-327 and 940-945): the enabled palette colors, pushed in order 1..5. -/
def activePalette (ps : Params) : List String :=
  (if ps.paletteColor1Enabled then [ps.paletteColor1] else []) ++
  (if ps.paletteColor2Enabled then [ps.paletteColor2] else []) ++
  (if ps.paletteColor3Enabled then [ps.paletteColor3] else []) ++
  (if ps.paletteColor4Enabled then [ps.paletteColor4] else []) ++
  (if ps.paletteColor5Enabled then [ps.paletteColor5] else [])

/-- `GlowParticleSystem.setParticleColor` (main.js lines 306-338).  Oracle
`rColor` is the raw `Math.random()` of whichever branch draws one (hue in
rainbow mode, palette index in palette mode).  Out-of-range list access
cannot occur for `rColor < 1`; `getD` supplies a dummy default. -/
def setParticleColor (ps : Params) (rColor : ℚ) : JsColor :=
  if ps.currentTheme = "light" then .hex "#222222"
  else
    match ps.colorMode with
    | "rainbow" => .hsl rColor (7/10) (6/10)
    | "single" => .hex ps.singleColorValue
    | "palette" =>
      let ap := activePalette ps
      if ap.length > 0 then
        .hex (ap.getD ⌊rColor * ap.length⌋.toNat "#ffffff")
      else
        .hex "#ffffff"
    | _ => .hsl rColor (7/10) (6/10)

/-- `CometParticleSystem.setCometColor` (main.js lines 923-962), dispatching
on `params.comet.colorMode`; with no palette color enabled it falls back to
`params.comet.cometColor`. -/
def setCometColor (ps : Params) (rColor : ℚ) : JsColor :=
  if ps.currentTheme = "light" then .hex "#0066cc"
  else
    match ps.comet.colorMode with
    | "rainbow" => .hsl rColor (8/10) (6/10)
    | "single" => .hex ps.comet.cometColor
    | "palette" =>
      let ap := activePalette ps
      if ap.length > 0 then
        .hex (ap.getD ⌊rColor * ap.length⌋.toNat "#ffffff")
      else
        .hex ps.comet.cometColor
    | _ => .hex ps.comet.cometColor

/-- One sample of path-family A (`createVivianiCurvePoints`, main.js lines
1173-1184): `x = a(1 + cos t)`, `y = a sin t`, `z = 2a sin(t/2)`. -/
noncomputable def vivianiPoint (a t : ℝ) : ℝ × ℝ × ℝ :=
  (a * (1 + Real.cos t), a * Real.sin t, 2 * a * Real.sin (t / 2))

/-- `createVivianiCurvePoints(a, numPoints)` (main.js lines 1173-1184):
`numPoints + 1` samples of the curve at `t = (i / numPoints) * 4π`. -/
noncomputable def createVivianiCurvePoints (a : ℝ) (numPoints : ℕ) : List (ℝ × ℝ × ℝ) :=
  (List.range (numPoints + 1)).map
    (fun (i : ℕ) => vivianiPoint a ((i : ℝ) / (numPoints : ℝ) * (4 * Real.pi)))

/-- Modelled from the spec: replace slot `i` with the last slot and drop the
last slot — the order-losing removal step the spec describes ("swapping the
last live slot into the freed index"). -/
def swapRemoveAt (l : List Spark) (i : ℕ) : List Spark :=
  match l.getLast? with
  | none => l
  | some last => (l.set i last).dropLast

/-- Modelled from the spec: scan the pool from slot `i`; a slot whose spark
has expired (`life ≤ 0`) is freed by swap-removal, a live slot is kept and
the scan advances. -/
def specSwapCompactAux (l : List Spark) (i : ℕ) : List Spark :=
  if h : i < l.length then
    if (l.get ⟨i, h⟩).life ≤ 0 then
      specSwapCompactAux (swapRemoveAt l i) i
    else
      specSwapCompactAux l (i + 1)
  else l
termination_by l.length - i
decreasing_by
  · have hpos : 0 < l.length := Nat.lt_of_le_of_lt (Nat.zero_le i) h
    have hlen : (swapRemoveAt l i).length = l.length - 1 := by
      unfold swapRemoveAt
      rcases hlast : l.getLast? with _ | last
      · rw [List.getLast?_eq_none_iff.mp hlast] at hpos
        simp at hpos
      · simp [List.length_dropLast]
    omega
  · omega

/-- Modelled from the spec: the per-slot tick of §4.4 starting at slot
`i` — decrement every slot's life and apply the physics update to the
survivors (expired slots keep their stale data until freed). -/
def specUpdateSlots (ds : ℕ → ℚ) : ℕ → List Spark → List Spark
  | _, [] => []
  | i, s :: rest =>
    (let life := s.life - (3/100 + ds i * 2/100)
     if life > 0 then
       let vel : Vec3 := ⟨s.vel.x, s.vel.y - 1/1000, s.vel.z⟩
       ({ pos := Vec3.add s.pos vel, size := s.size * 98/100,
          life := life, vel := vel } : Spark)
     else
       { s with life := life }) :: specUpdateSlots ds (i + 1) rest

/-- Modelled from the spec: the whole expiry pass of §4.4 under the spec's
swap-compaction reading — decrement every slot's life and apply the
physics update to the survivors, then free the expired slots by swapping
the last live slot into each freed index. -/
def specSwapCompact (ds : ℕ → ℚ) (sparks : List Spark) : List Spark :=
  specSwapCompactAux (specUpdateSlots ds 0 sparks) 0

/-- One manager-driven operation on a `WeldingSpark`, with its oracle
draws: a bare emission (`emitSparks`) or a full tick (`update`). -/
inductive SparkOp where
  | emit (rCount : ℚ) (rs : List SparkRand)
  | tick (rScatter : Vec3) (rEmitGate rCount : ℚ) (rs : List SparkRand)
      (ds : ℕ → ℚ)

/-- Run a sequence of pool operations left to right. -/
def runSparkOps (ps : Params) (path : CurvePath) :
    List SparkOp → WeldingSpark → WeldingSpark
  | [], p => p
  | .emit rCount rs :: ops, p =>
    runSparkOps ps path ops (p.emitSparks ps path rCount rs)
  | .tick r g c rs ds :: ops, p =>
    runSparkOps ps path ops (p.update ps path r g c rs ds)

/-- A straight-line probe curve used to instantiate theorems at concrete
inputs. -/
def probePath : CurvePath where
  pointAt := fun t => ⟨t, 0, 0⟩
  tangentAt := fun _ => ⟨1, 0, 0⟩
  closed := true

/-- The open variant of the probe curve: same samples, `closed = false`,
so the open-path seam handling of the managers applies. -/
def openProbePath : CurvePath where
  pointAt := fun t => ⟨t, 0, 0⟩
  tangentAt := fun _ => ⟨1, 0, 0⟩
  closed := false

/-- Claim C1: for every enabled lifecycle configuration with positive
fade-in, stable and fade-out fractions, `calculateLifecycleAlpha` equals
the clamped piecewise function of `p = (lifecycleOffset + currentT) mod 1`
— ramp `p / fadeIn` below `fadeIn`, 1 on `[fadeIn, fadeIn + stable)`,
`1 - (p - fadeIn - stable) / fadeOut` above, clamped to [0,1]; in
particular the alpha is 0 at `p = 0`, 1 at `p = fadeIn` and at
`p = fadeIn + stable`, and lies in [0,1] for every `p ∈ [0,1)`. -/
theorem claim_C1_lifecycle_alpha_piecewise (ps : Params)
    (hEn : ps.lifecycle.enabled = true)
    (hFI : 0 < ps.lifecycle.fadeInTime)
    (hS : 0 < ps.lifecycle.stableTime)
    (hFO : 0 < ps.lifecycle.fadeOutTime) :
    (∀ off t : ℚ, calculateLifecycleAlpha ps off t =
      lifecycleAlphaAt ps.lifecycle.fadeInTime ps.lifecycle.stableTime
        ps.lifecycle.fadeOutTime (jsMod (off + t) 1)) ∧
    (∀ p : ℚ, 0 ≤ p → p < ps.lifecycle.fadeInTime →
      lifecycleAlphaAt ps.lifecycle.fadeInTime ps.lifecycle.stableTime
        ps.lifecycle.fadeOutTime p = p / ps.lifecycle.fadeInTime) ∧
    (∀ p : ℚ, ps.lifecycle.fadeInTime ≤ p →
      p < ps.lifecycle.fadeInTime + ps.lifecycle.stableTime →
      lifecycleAlphaAt ps.lifecycle.fadeInTime ps.lifecycle.stableTime
        ps.lifecycle.fadeOutTime p = 1) ∧
    (∀ p : ℚ, ps.lifecycle.fadeInTime + ps.lifecycle.stableTime ≤ p →
      lifecycleAlphaAt ps.lifecycle.fadeInTime ps.lifecycle.stableTime
        ps.lifecycle.fadeOutTime p =
        max 0 (1 - (p - ps.lifecycle.fadeInTime - ps.lifecycle.stableTime) /
          ps.lifecycle.fadeOutTime)) ∧
    lifecycleAlphaAt ps.lifecycle.fadeInTime ps.lifecycle.stableTime
      ps.lifecycle.fadeOutTime 0 = 0 ∧
    lifecycleAlphaAt ps.lifecycle.fadeInTime ps.lifecycle.stableTime
      ps.lifecycle.fadeOutTime ps.lifecycle.fadeInTime = 1 ∧
    lifecycleAlphaAt ps.lifecycle.fadeInTime ps.lifecycle.stableTime
      ps.lifecycle.fadeOutTime
      (ps.lifecycle.fadeInTime + ps.lifecycle.stableTime) = 1 ∧
    (∀ p : ℚ, 0 ≤ p → p < 1 →
      0 ≤ lifecycleAlphaAt ps.lifecycle.fadeInTime ps.lifecycle.stableTime
        ps.lifecycle.fadeOutTime p ∧
      lifecycleAlphaAt ps.lifecycle.fadeInTime ps.lifecycle.stableTime
        ps.lifecycle.fadeOutTime p ≤ 1) := by
  set fI := ps.lifecycle.fadeInTime with hfi
  set s := ps.lifecycle.stableTime with hst
  set fO := ps.lifecycle.fadeOutTime with hfo
  refine ⟨?_, ?_, ?_, ?_, ?_, ?_, ?_, ?_⟩
  · intro off t
    simp [calculateLifecycleAlpha, hEn]
  · intro p h0 hlt
    have h1 : p / fI < 1 := (div_lt_one hFI).mpr hlt
    have h2 : 0 ≤ p / fI := div_nonneg h0 hFI.le
    simp only [lifecycleAlphaAt, if_pos hlt]
    rw [min_eq_right h1.le, max_eq_right h2]
  · intro p hge hlt
    simp only [lifecycleAlphaAt, if_neg (not_lt.mpr hge),
      if_neg (not_le.mpr hlt)]
    norm_num
  · intro p hge
    have hfi2 : ¬ p < fI := not_lt.mpr (by linarith)
    have hq : 0 ≤ (p - fI - s) / fO := div_nonneg (by linarith) hFO.le
    simp only [lifecycleAlphaAt, if_neg hfi2, ge_iff_le, if_pos hge]
    rw [min_eq_right (by linarith)]
  · simp only [lifecycleAlphaAt, if_pos hFI, zero_div]
    norm_num
  · have h1 : ¬ fI < fI := lt_irrefl fI
    have h2 : ¬ fI ≥ fI + s := not_le.mpr (by linarith)
    simp only [lifecycleAlphaAt, if_neg h1, ge_iff_le, if_neg (not_le.mpr (by linarith : fI < fI + s))]
    norm_num
  · have h1 : ¬ fI + s < fI := not_lt.mpr (by linarith)
    simp only [lifecycleAlphaAt, if_neg h1, ge_iff_le, if_pos (le_refl (fI + s))]
    norm_num
  · intro p _ _
    constructor
    · exact le_max_left 0 _
    · exact max_le (by norm_num) (min_le_left 1 _)

/-- Witness for C1: the source's own `params` literal (fade-in 0.09,
stable 0.9, fade-out 0.2, lifecycle enabled) satisfies the hypotheses,
and the piecewise description holds for it. -/
theorem claim_C1_witness :
    defaultParams.lifecycle.enabled = true ∧
    0 < defaultParams.lifecycle.fadeInTime ∧
    0 < defaultParams.lifecycle.stableTime ∧
    0 < defaultParams.lifecycle.fadeOutTime ∧
    ((∀ off t : ℚ, calculateLifecycleAlpha defaultParams off t =
      lifecycleAlphaAt defaultParams.lifecycle.fadeInTime
        defaultParams.lifecycle.stableTime
        defaultParams.lifecycle.fadeOutTime (jsMod (off + t) 1)) ∧
    (∀ p : ℚ, 0 ≤ p → p < defaultParams.lifecycle.fadeInTime →
      lifecycleAlphaAt defaultParams.lifecycle.fadeInTime
        defaultParams.lifecycle.stableTime
        defaultParams.lifecycle.fadeOutTime p =
        p / defaultParams.lifecycle.fadeInTime) ∧
    (∀ p : ℚ, defaultParams.lifecycle.fadeInTime ≤ p →
      p < defaultParams.lifecycle.fadeInTime + defaultParams.lifecycle.stableTime →
      lifecycleAlphaAt defaultParams.lifecycle.fadeInTime
        defaultParams.lifecycle.stableTime
        defaultParams.lifecycle.fadeOutTime p = 1) ∧
    (∀ p : ℚ, defaultParams.lifecycle.fadeInTime + defaultParams.lifecycle.stableTime ≤ p →
      lifecycleAlphaAt defaultParams.lifecycle.fadeInTime
        defaultParams.lifecycle.stableTime
        defaultParams.lifecycle.fadeOutTime p =
        max 0 (1 - (p - defaultParams.lifecycle.fadeInTime -
          defaultParams.lifecycle.stableTime) /
          defaultParams.lifecycle.fadeOutTime)) ∧
    lifecycleAlphaAt defaultParams.lifecycle.fadeInTime
      defaultParams.lifecycle.stableTime
      defaultParams.lifecycle.fadeOutTime 0 = 0 ∧
    lifecycleAlphaAt defaultParams.lifecycle.fadeInTime
      defaultParams.lifecycle.stableTime
      defaultParams.lifecycle.fadeOutTime
      defaultParams.lifecycle.fadeInTime = 1 ∧
    lifecycleAlphaAt defaultParams.lifecycle.fadeInTime
      defaultParams.lifecycle.stableTime
      defaultParams.lifecycle.fadeOutTime
      (defaultParams.lifecycle.fadeInTime + defaultParams.lifecycle.stableTime) = 1 ∧
    (∀ p : ℚ, 0 ≤ p → p < 1 →
      0 ≤ lifecycleAlphaAt defaultParams.lifecycle.fadeInTime
        defaultParams.lifecycle.stableTime
        defaultParams.lifecycle.fadeOutTime p ∧
      lifecycleAlphaAt defaultParams.lifecycle.fadeInTime
        defaultParams.lifecycle.stableTime
        defaultParams.lifecycle.fadeOutTime p ≤ 1)) :=
  ⟨rfl, by norm_num [defaultParams], by norm_num [defaultParams],
   by norm_num [defaultParams],
   claim_C1_lifecycle_alpha_piecewise defaultParams rfl
     (by norm_num [defaultParams]) (by norm_num [defaultParams])
     (by norm_num [defaultParams])⟩

/-- Claim C10: when the lifecycle feature is disabled
(`params.lifecycle.enabled` false), `calculateLifecycleAlpha` returns
exactly 1.0 for every particle, regardless of `lifecycleOffset` and
`currentT`. -/
theorem claim_C10_disabled_lifecycle_alpha_one (ps : Params)
    (h : ps.lifecycle.enabled = false) (lifecycleOffset currentT : ℚ) :
    calculateLifecycleAlpha ps lifecycleOffset currentT = 1 := by
  simp [calculateLifecycleAlpha, h]

/-- Witness for C10: the source's `params` literal with the lifecycle
toggle switched off yields alpha 1 at a sample particle state. -/
theorem claim_C10_witness :
    ({ defaultParams with
        lifecycle := { defaultParams.lifecycle with enabled := false } } :
      Params).lifecycle.enabled = false ∧
    calculateLifecycleAlpha
      { defaultParams with
        lifecycle := { defaultParams.lifecycle with enabled := false } }
      (37/100) (19/20) = 1 :=
  ⟨rfl, claim_C10_disabled_lifecycle_alpha_one _ rfl (37/100) (19/20)⟩

/-- Claim C3: on the tick where `currentT` crosses 1, a `GlowParticle` with
`trailLength ≥ 1` resets `currentT` to 0, draws the fresh scatter offset,
and after the update every sample of the trail position buffer equals the
new head position — the curve point at `t = 0` plus the new scatter
offset; no stale positions survive the reset. -/
theorem claim_C3_wrap_reset_teleports_trail (ps : Params) (path : CurvePath)
    (rScatter : Vec3) (p : GlowParticle) (hL : 1 ≤ p.trailLength)
    (hCross : 1 ≤ p.currentT + ps.glow.speedFactor * p.baseSpeedRandomness) :
    (GlowParticle.update ps path rScatter p).currentT = 0 ∧
    (GlowParticle.update ps path rScatter p).scatterOffset =
      scatterVec rScatter ps.particleScatterRadius ∧
    (GlowParticle.update ps path rScatter p).trailPositions.length =
      p.trailLength ∧
    ∀ v ∈ (GlowParticle.update ps path rScatter p).trailPositions,
      v = Vec3.add (path.pointAt 0)
        (scatterVec rScatter ps.particleScatterRadius) := by
  have hTake :
      ∀ s : Vec3, (s :: List.replicate p.trailLength s).take p.trailLength =
        List.replicate p.trailLength s := by
    intro s
    rw [← List.replicate_succ, List.take_replicate]
    congr 1
    omega
  refine ⟨?_, ?_, ?_, ?_⟩
  · simp only [GlowParticle.update, ge_iff_le, hCross, if_true]
  · simp only [GlowParticle.update, ge_iff_le, hCross, if_true]
  · simp only [GlowParticle.update, ge_iff_le, hCross, if_true]
    rw [hTake]
    exact List.length_replicate ..
  · simp only [GlowParticle.update, ge_iff_le, hCross, if_true]
    rw [hTake]
    intro v hv
    exact List.eq_of_mem_replicate hv

/-- Witness for C3: a concrete particle on a straight-line probe curve,
with trail length 3 and `currentT = 0.8` moving at speed 0.25, crosses 1
on this tick; the conjunction holds for it. -/
theorem claim_C3_witness :
    (1 ≤ (3:ℕ) ∧
     (1:ℚ) ≤ 8/10 + 1 * (1/4)) ∧
    ((GlowParticle.update
        { defaultParams with glow := { defaultParams.glow with speedFactor := 1 } }
        { pointAt := fun t => ⟨t, 0, 0⟩, tangentAt := fun _ => ⟨1, 0, 0⟩,
          closed := true }
        ⟨3/4, 1/4, 1/2⟩
        { currentT := 8/10, baseSpeedRandomness := 1/4, speed := 1/4,
          lifecycleOffset := 0, justReset := false,
          scatterOffset := ⟨0, 0, 0⟩, trailLength := 3,
          trailPositions := [⟨1, 0, 0⟩, ⟨2, 0, 0⟩, ⟨3, 0, 0⟩],
          trailAlphas := [1, 1/2, 0], uLifecycleAlpha := 1 }).currentT = 0 ∧
     (GlowParticle.update
        { defaultParams with glow := { defaultParams.glow with speedFactor := 1 } }
        { pointAt := fun t => ⟨t, 0, 0⟩, tangentAt := fun _ => ⟨1, 0, 0⟩,
          closed := true }
        ⟨3/4, 1/4, 1/2⟩
        { currentT := 8/10, baseSpeedRandomness := 1/4, speed := 1/4,
          lifecycleOffset := 0, justReset := false,
          scatterOffset := ⟨0, 0, 0⟩, trailLength := 3,
          trailPositions := [⟨1, 0, 0⟩, ⟨2, 0, 0⟩, ⟨3, 0, 0⟩],
          trailAlphas := [1, 1/2, 0], uLifecycleAlpha := 1 }).scatterOffset =
       scatterVec ⟨3/4, 1/4, 1/2⟩
         ({ defaultParams with
             glow := { defaultParams.glow with speedFactor := 1 } } :
           Params).particleScatterRadius ∧
     (GlowParticle.update
        { defaultParams with glow := { defaultParams.glow with speedFactor := 1 } }
        { pointAt := fun t => ⟨t, 0, 0⟩, tangentAt := fun _ => ⟨1, 0, 0⟩,
          closed := true }
        ⟨3/4, 1/4, 1/2⟩
        { currentT := 8/10, baseSpeedRandomness := 1/4, speed := 1/4,
          lifecycleOffset := 0, justReset := false,
          scatterOffset := ⟨0, 0, 0⟩, trailLength := 3,
          trailPositions := [⟨1, 0, 0⟩, ⟨2, 0, 0⟩, ⟨3, 0, 0⟩],
          trailAlphas := [1, 1/2, 0], uLifecycleAlpha := 1 }).trailPositions.length = 3 ∧
     ∀ v ∈ (GlowParticle.update
        { defaultParams with glow := { defaultParams.glow with speedFactor := 1 } }
        { pointAt := fun t => ⟨t, 0, 0⟩, tangentAt := fun _ => ⟨1, 0, 0⟩,
          closed := true }
        ⟨3/4, 1/4, 1/2⟩
        { currentT := 8/10, baseSpeedRandomness := 1/4, speed := 1/4,
          lifecycleOffset := 0, justReset := false,
          scatterOffset := ⟨0, 0, 0⟩, trailLength := 3,
          trailPositions := [⟨1, 0, 0⟩, ⟨2, 0, 0⟩, ⟨3, 0, 0⟩],
          trailAlphas := [1, 1/2, 0], uLifecycleAlpha := 1 }).trailPositions,
       v = Vec3.add
         (({ pointAt := fun t => ⟨t, 0, 0⟩, tangentAt := fun _ => ⟨1, 0, 0⟩,
             closed := true } : CurvePath).pointAt 0)
         (scatterVec ⟨3/4, 1/4, 1/2⟩
           ({ defaultParams with
               glow := { defaultParams.glow with speedFactor := 1 } } :
             Params).particleScatterRadius)) :=
  ⟨⟨by norm_num, by norm_num⟩,
   claim_C3_wrap_reset_teleports_trail _ _ _ _ (by norm_num) (by norm_num)⟩


/-- Helper: the fade ramp has one weight per trail slot. -/
theorem trailRamp_length (L : ℕ) : (trailRamp L).length = L := by
  unfold trailRamp
  split
  · rw [List.length_set, List.length_map, List.length_range]
  · rw [List.length_map, List.length_range]

/-- Helper: every slot `i < L` of `trailRamp L` holds
`1 - i / max 1 (L - 1)` (the head overwrite writes the value the formula
already gives at slot 0). -/
theorem trailRamp_getElem (L : ℕ) (i : ℕ) (hi : i < L) :
    (trailRamp L)[i]? = some (1 - (i : ℚ) / max 1 ((L : ℚ) - 1)) := by
  have hL0 : 0 < L := by omega
  have hlen : ((List.range L).map
      (fun (i : ℕ) => 1 - (i : ℚ) / max 1 ((L : ℚ) - 1))).length = L := by
    rw [List.length_map, List.length_range]
  rcases Nat.eq_zero_or_pos i with hi0 | hip
  · subst hi0
    simp only [trailRamp, if_pos hL0]
    rw [List.getElem?_set_self (by rw [hlen]; exact hL0)]
    norm_num
  · simp only [trailRamp, if_pos hL0]
    rw [List.getElem?_set_ne (by omega : (0 : ℕ) ≠ i)]
    rw [List.getElem?_map, List.getElem?_range hi]
    rfl

/-- Helper: every fade-ramp weight lies in [0,1]. -/
theorem trailRamp_mem_bounds (L : ℕ) (w : ℚ) (hw : w ∈ trailRamp L) :
    0 ≤ w ∧ w ≤ 1 := by
  obtain ⟨i, hi⟩ := List.mem_iff_getElem?.mp hw
  have hiL : i < L := by
    by_contra hge
    have hlen := trailRamp_length L
    rw [List.getElem?_eq_none (by omega)] at hi
    cases hi
  rw [trailRamp_getElem L i hiL] at hi
  injection hi with h
  subst h
  have hden : (1 : ℚ) ≤ max 1 ((L : ℚ) - 1) := le_max_left 1 _
  have hnum : (i : ℚ) ≤ max 1 ((L : ℚ) - 1) := by
    have hcast : (i : ℚ) + 1 ≤ (L : ℚ) := by
      exact_mod_cast Nat.succ_le_of_lt hiL
    calc (i : ℚ) ≤ (L : ℚ) - 1 := by linarith
      _ ≤ max 1 ((L : ℚ) - 1) := le_max_right 1 _
  have hratio1 : (i : ℚ) / max 1 ((L : ℚ) - 1) ≤ 1 :=
    (div_le_one (by linarith)).mpr hnum
  have hratio0 : 0 ≤ (i : ℚ) / max 1 ((L : ℚ) - 1) :=
    div_nonneg (by positivity) (by linarith)
  constructor <;> linarith

/-- Claim C8: `GlowParticle.update` recomputes the per-sample fade weights
every tick as `trailRamp`; for every trail length `L ≥ 1` the ramp is
linear from 1 at the head toward 0 at the tail with the denominator
floored at 1 (so no division by zero), every weight lies in [0,1], the
head weight is exactly 1, the tail weight is 0 for `L ≥ 2`, and a
single-sample trail's only weight is 1. -/
theorem claim_C8_trail_fade_ramp (L : ℕ) (hL : 1 ≤ L) :
    (∀ (ps : Params) (path : CurvePath) (r : Vec3) (p : GlowParticle),
      (GlowParticle.update ps path r p).trailAlphas = trailRamp p.trailLength) ∧
    (1 : ℚ) ≤ max 1 ((L : ℚ) - 1) ∧
    (∀ i, i < L →
      (trailRamp L)[i]? = some (1 - (i : ℚ) / max 1 ((L : ℚ) - 1))) ∧
    (∀ w ∈ trailRamp L, 0 ≤ w ∧ w ≤ 1) ∧
    (trailRamp L)[0]? = some 1 ∧
    (2 ≤ L → (trailRamp L)[L - 1]? = some 0) ∧
    trailRamp 1 = [1] := by
  refine ⟨?_, le_max_left 1 _, fun i hi => trailRamp_getElem L i hi,
    fun w hw => trailRamp_mem_bounds L w hw, ?_, ?_, ?_⟩
  · intro ps path r p
    rfl
  · rw [trailRamp_getElem L 0 hL]
    norm_num
  · intro h2
    rw [trailRamp_getElem L (L - 1) (by omega)]
    have h1q : (1 : ℚ) ≤ (L : ℚ) - 1 := by
      have h2q : (2 : ℚ) ≤ (L : ℚ) := by exact_mod_cast h2
      linarith
    have hcast : ((L - 1 : ℕ) : ℚ) = (L : ℚ) - 1 := by
      push_cast [Nat.cast_sub (by omega : 1 ≤ L)]
      ring
    rw [max_eq_right h1q, hcast, div_self (by linarith)]
    norm_num
  · simp [trailRamp, List.range_succ]

/-- Witness for C8: the ramp properties at the source's configured glow
trail length 22. -/
theorem claim_C8_witness :
    1 ≤ (22 : ℕ) ∧
    (trailRamp 22)[0]? = some 1 ∧
    (trailRamp 22)[21]? = some 0 ∧
    trailRamp 1 = [1] := by
  obtain ⟨-, -, -, -, h5, h6, h7⟩ := claim_C8_trail_fade_ramp 22 (by norm_num)
  exact ⟨by norm_num, h5, by simpa using h6 (by norm_num), h7⟩

/-- Counterexample for C7: at curve parameter `t = π` the Viviani sample
with scale `a = 5` is not `(0, 0, 0)` — its `z` component is
`2·5·sin(π/2) = 10`. -/
theorem claim_C7_counterexample : vivianiPoint 5 Real.pi ≠ (0, 0, 0) := by
  simp only [vivianiPoint, Real.cos_pi, Real.sin_pi, Real.sin_pi_div_two,
    Prod.mk.injEq]
  intro h
  norm_num at h

/-- Claim C7 (amended): path-family A with scale `a = 5`, as generated by
`createVivianiCurvePoints`, yields `(10, 0, 0)` at curve parameter `t = 0`
and `(0, 0, 10)` at `t = π`; those parameters are the samples at indices 0
and 64 of the 256-interval sampling the source uses. -/
theorem claim_C7_viviani_samples :
    vivianiPoint 5 0 = (10, 0, 0) ∧
    vivianiPoint 5 Real.pi = (0, 0, 10) ∧
    (createVivianiCurvePoints 5 256)[0]? = some (vivianiPoint 5 0) ∧
    (createVivianiCurvePoints 5 256)[64]? = some (vivianiPoint 5 Real.pi) := by
  refine ⟨?_, ?_, ?_, ?_⟩
  · simp only [vivianiPoint, Real.cos_zero, Real.sin_zero]
    norm_num
  · simp only [vivianiPoint, Real.cos_pi, Real.sin_pi, Real.sin_pi_div_two]
    norm_num
  · rw [createVivianiCurvePoints, List.getElem?_map,
      List.getElem?_range (by norm_num : (0 : ℕ) < 256 + 1)]
    norm_num
  · rw [createVivianiCurvePoints, List.getElem?_map,
      List.getElem?_range (by norm_num : (64 : ℕ) < 256 + 1)]
    have harg : ((64 : ℕ) : ℝ) / (256 : ℕ) * (4 * Real.pi) = Real.pi := by
      push_cast
      ring
    rw [Option.map_some', harg]

/-- Counterexample for C6: a `WeldingSpark` created with speed draw 0.9
gets multiplier `0.5 + 0.9 · 1.5 = 1.85`, outside the claimed range
[0.5, 1.5] (the spark constructor scales its draw by 1.5, not 1.0). -/
theorem claim_C6_counterexample :
    (WeldingSpark.create defaultParams probePath (1/4) (9/10) 0
      ⟨1/2, 1/2, 1/2⟩ 0 []).baseSpeedRandomness = 37/20 ∧
    ¬((1/2 : ℚ) ≤ 37/20 ∧ (37/20 : ℚ) ≤ 3/2) := by
  constructor
  · norm_num [WeldingSpark.create, WeldingSpark.emitSparks]
  · norm_num

/-- Claim C6 (amended): the per-particle speed multiplier drawn at
construction lies in [0.5, 1.5] for `GlowParticle` and `Comet` but in
[0.5, 2.0] for `WeldingSpark` (whose constructor scales the draw by 1.5);
for every variant the multiplier is never changed by `update`, and each
tick's speed is recomputed as the configured speed factor times that fixed
multiplier. -/
theorem claim_C6_speed_multiplier (rSpeed : ℚ)
    (h0 : 0 ≤ rSpeed) (h1 : rSpeed ≤ 1) :
    (∀ (ps : Params) (path : CurvePath) (rT rOff : ℚ) (rS : Vec3),
      (GlowParticle.create ps path rT rSpeed rOff rS).baseSpeedRandomness =
        1/2 + rSpeed * 1 ∧
      1/2 ≤ (GlowParticle.create ps path rT rSpeed rOff rS).baseSpeedRandomness ∧
      (GlowParticle.create ps path rT rSpeed rOff rS).baseSpeedRandomness ≤ 3/2) ∧
    (∀ (ps : Params) (path : CurvePath) (rT rOff : ℚ) (rS : Vec3),
      (Comet.create ps path rT rSpeed rOff rS).baseSpeedRandomness =
        1/2 + rSpeed * 1 ∧
      1/2 ≤ (Comet.create ps path rT rSpeed rOff rS).baseSpeedRandomness ∧
      (Comet.create ps path rT rSpeed rOff rS).baseSpeedRandomness ≤ 3/2) ∧
    (∀ (ps : Params) (path : CurvePath) (rT rOff : ℚ) (rS : Vec3)
      (rCount : ℚ) (rs : List SparkRand),
      (WeldingSpark.create ps path rT rSpeed rOff rS rCount rs).baseSpeedRandomness =
        1/2 + rSpeed * (3/2) ∧
      1/2 ≤ (WeldingSpark.create ps path rT rSpeed rOff rS rCount rs).baseSpeedRandomness ∧
      (WeldingSpark.create ps path rT rSpeed rOff rS rCount rs).baseSpeedRandomness ≤ 2) ∧
    (∀ (ps : Params) (path : CurvePath) (r : Vec3) (p : GlowParticle),
      (GlowParticle.update ps path r p).baseSpeedRandomness =
        p.baseSpeedRandomness ∧
      (GlowParticle.update ps path r p).speed =
        ps.glow.speedFactor * p.baseSpeedRandomness) ∧
    (∀ (ps : Params) (path : CurvePath) (r : Vec3) (p : Comet),
      (Comet.update ps path r p).baseSpeedRandomness = p.baseSpeedRandomness ∧
      (Comet.update ps path r p).speed =
        ps.comet.speedFactor * p.baseSpeedRandomness) ∧
    (∀ (ps : Params) (path : CurvePath) (r : Vec3) (g c : ℚ)
      (rs : List SparkRand) (ds : ℕ → ℚ) (p : WeldingSpark),
      (WeldingSpark.update ps path r g c rs ds p).baseSpeedRandomness =
        p.baseSpeedRandomness ∧
      (WeldingSpark.update ps path r g c rs ds p).speed =
        ps.weldingSpark.speedFactor * p.baseSpeedRandomness) := by
  refine ⟨?_, ?_, ?_, ?_, ?_, ?_⟩
  · intro ps path rT rOff rS
    refine ⟨rfl, ?_, ?_⟩ <;>
      simp only [GlowParticle.create] <;> linarith
  · intro ps path rT rOff rS
    refine ⟨rfl, ?_, ?_⟩ <;>
      simp only [Comet.create] <;> linarith
  · intro ps path rT rOff rS rCount rs
    have hbase : (WeldingSpark.create ps path rT rSpeed rOff rS rCount
        rs).baseSpeedRandomness = 1/2 + rSpeed * (3/2) := by
      simp only [WeldingSpark.create, WeldingSpark.emitSparks]
    refine ⟨hbase, ?_, ?_⟩ <;> rw [hbase] <;> linarith
  · intro ps path r p
    constructor
    · simp only [GlowParticle.update]
    · simp only [GlowParticle.update]
  · intro ps path r p
    constructor
    · simp only [Comet.update]
    · simp only [Comet.update]
  · intro ps path r g c rs ds p
    constructor
    · simp only [WeldingSpark.update, WeldingSpark.emitSparks]
      split <;> rfl
    · simp only [WeldingSpark.update, WeldingSpark.emitSparks]
      split <;> rfl

/-- Witness for C6: the amended conjunction at the concrete speed draw
`rSpeed = 1/3` (a valid `Math.random()` value). -/
theorem claim_C6_witness :
    (0 ≤ (1/3 : ℚ) ∧ (1/3 : ℚ) ≤ 1) ∧
    ((GlowParticle.create defaultParams probePath (1/4) (1/3) 0
        ⟨1/2, 1/2, 1/2⟩).baseSpeedRandomness = 1/2 + (1/3) * 1 ∧
     (WeldingSpark.create defaultParams probePath (1/4) (1/3) 0
        ⟨1/2, 1/2, 1/2⟩ 0 []).baseSpeedRandomness = 1/2 + (1/3) * (3/2)) := by
  obtain ⟨hG, hC, hW, _, _, _⟩ :=
    claim_C6_speed_multiplier (1/3) (by norm_num) (by norm_num)
  exact ⟨⟨by norm_num, by norm_num⟩,
    (hG defaultParams probePath (1/4) 0 ⟨1/2, 1/2, 1/2⟩).1,
    (hW defaultParams probePath (1/4) 0 ⟨1/2, 1/2, 1/2⟩ 0 []).1⟩

/-- Helper: the emission loop never pushes the live count past the
capacity. -/
theorem emitLoop_length_le (cap : ℕ) (sz : ℚ) (o : Vec3)
    (rs : List SparkRand) :
    ∀ sparks : List Spark, sparks.length ≤ cap →
      (emitLoop cap sz o rs sparks).length ≤ cap := by
  induction rs with
  | nil => intro sparks h; exact h
  | cons r rs ih =>
    intro sparks h
    simp only [emitLoop]
    split
    · exact h
    · next hfull =>
      refine ih _ ?_
      rw [List.length_append]
      simp only [List.length_cons, List.length_nil]
      omega

/-- Helper: emission into a full pool changes nothing — the whole burst is
silently dropped. -/
theorem emitLoop_full (cap : ℕ) (sz : ℚ) (o : Vec3) (rs : List SparkRand)
    (sparks : List Spark) (h : cap ≤ sparks.length) :
    emitLoop cap sz o rs sparks = sparks := by
  cases rs with
  | nil => rfl
  | cons r rs => simp only [emitLoop, if_pos h]

/-- Helper: `emitSparks` keeps the pool size within capacity and never
touches `maxLife` (hence never grows the pool's capacity). -/
theorem emitSparks_length_le (ps : Params) (path : CurvePath) (rCount : ℚ)
    (rs : List SparkRand) (p : WeldingSpark)
    (h : p.sparks.length ≤ p.capacity) :
    (p.emitSparks ps path rCount rs).sparks.length ≤ p.capacity ∧
    (p.emitSparks ps path rCount rs).maxLife = p.maxLife := by
  constructor
  · simp only [WeldingSpark.emitSparks]
    exact emitLoop_length_le _ _ _ _ _ h
  · rfl

/-- Helper: the stable compaction never lengthens the pool prefix. -/
theorem stableCompactFrom_length_le (ds : ℕ → ℚ) :
    ∀ (i : ℕ) (l : List Spark),
      (stableCompactFrom ds i l).length ≤ l.length := by
  intro i l
  induction l generalizing i with
  | nil => simp [stableCompactFrom]
  | cons s rest ih =>
    simp only [stableCompactFrom]
    split
    · next s2 heq =>
      simp only [List.length_cons]
      exact Nat.succ_le_succ (ih (i + 1))
    · next heq =>
      exact Nat.le_succ_of_le (ih (i + 1))

/-- Helper: a tick keeps the pool size within capacity and never touches
`maxLife`. -/
theorem update_length_le (ps : Params) (path : CurvePath) (r : Vec3)
    (g c : ℚ) (rs : List SparkRand) (ds : ℕ → ℚ) (p : WeldingSpark)
    (h : p.sparks.length ≤ p.capacity) :
    (p.update ps path r g c rs ds).sparks.length ≤ p.capacity ∧
    (p.update ps path r g c rs ds).maxLife = p.maxLife := by
  constructor
  · simp only [WeldingSpark.update, stableCompact]
    split
    · next hgate =>
      calc (stableCompactFrom ds 0
              (WeldingSpark.emitSparks ps path c rs _).sparks).length
          ≤ (WeldingSpark.emitSparks ps path c rs _).sparks.length :=
            stableCompactFrom_length_le ds 0 _
        _ ≤ p.capacity := by
            simp only [WeldingSpark.emitSparks]
            exact emitLoop_length_le _ _ _ _ _ h
    · calc (stableCompactFrom ds 0 p.sparks).length
          ≤ p.sparks.length := stableCompactFrom_length_le ds 0 _
        _ ≤ p.capacity := h
  · simp only [WeldingSpark.update, WeldingSpark.emitSparks]
    split <;> rfl

/-- Claim C4: the `WeldingSpark` pool has fixed capacity
`3 × configuredTrailLength`; the live sub-particle count starts within
capacity at construction and stays within it after any sequence of
`emitSparks` and `update` calls, and an emission into a full pool is
silently dropped — the pool is left unchanged rather than grown. -/
theorem claim_C4_pool_capacity (ps : Params) (path : CurvePath) :
    (∀ (rT rSpeed rOff : ℚ) (rS : Vec3) (rCount : ℚ) (rs : List SparkRand),
      (WeldingSpark.create ps path rT rSpeed rOff rS rCount rs).capacity =
        3 * ps.weldingSpark.trailLength ∧
      (WeldingSpark.create ps path rT rSpeed rOff rS rCount rs).sparks.length ≤
        (WeldingSpark.create ps path rT rSpeed rOff rS rCount rs).capacity) ∧
    (∀ (ops : List SparkOp) (p : WeldingSpark),
      p.sparks.length ≤ p.capacity →
      (runSparkOps ps path ops p).capacity = p.capacity ∧
      (runSparkOps ps path ops p).sparks.length ≤ p.capacity) ∧
    (∀ (rCount : ℚ) (rs : List SparkRand) (p : WeldingSpark),
      p.capacity ≤ p.sparks.length →
      (p.emitSparks ps path rCount rs).sparks = p.sparks) := by
  refine ⟨?_, ?_, ?_⟩
  · intro rT rSpeed rOff rS rCount rs
    constructor
    · simp only [WeldingSpark.capacity, WeldingSpark.create,
        WeldingSpark.emitSparks]
      exact Nat.mul_comm _ 3
    · exact (emitSparks_length_le ps path rCount rs _ (Nat.zero_le _)).1
  · intro ops
    induction ops with
    | nil => intro p h; exact ⟨rfl, h⟩
    | cons op ops ih =>
      intro p h
      cases op with
      | emit c rs =>
        obtain ⟨hlen, hml⟩ := emitSparks_length_le ps path c rs p h
        have hcap : (p.emitSparks ps path c rs).capacity = p.capacity := by
          simp only [WeldingSpark.capacity, hml]
        obtain ⟨ih1, ih2⟩ := ih (p.emitSparks ps path c rs) (hcap ▸ hlen)
        exact ⟨by simp only [runSparkOps]; rw [ih1, hcap],
               by simp only [runSparkOps]; rw [← hcap]; exact ih2⟩
      | tick r g c rs ds =>
        obtain ⟨hlen, hml⟩ := update_length_le ps path r g c rs ds p h
        have hcap : (p.update ps path r g c rs ds).capacity = p.capacity := by
          simp only [WeldingSpark.capacity, hml]
        obtain ⟨ih1, ih2⟩ := ih (p.update ps path r g c rs ds) (hcap ▸ hlen)
        exact ⟨by simp only [runSparkOps]; rw [ih1, hcap],
               by simp only [runSparkOps]; rw [← hcap]; exact ih2⟩
  · intro c rs p h
    simp only [WeldingSpark.emitSparks]
    exact emitLoop_full _ _ _ _ _ h

/-- Witness for C4: a concrete pool of capacity 6 (trail length 2) with an
empty live prefix satisfies the invariant hypothesis, and one emission op
keeps the live count within capacity. -/
theorem claim_C4_witness :
    (WeldingSpark.mk 0 1 (6/1000) 0 ⟨0, 0, 0⟩ 2 [] 0 1).sparks.length ≤
      (WeldingSpark.mk 0 1 (6/1000) 0 ⟨0, 0, 0⟩ 2 [] 0 1).capacity ∧
    (runSparkOps defaultParams probePath
      [SparkOp.emit (1/2) [SparkRand.mk ⟨1, 0, 0⟩ (1/2)]]
      (WeldingSpark.mk 0 1 (6/1000) 0 ⟨0, 0, 0⟩ 2 [] 0 1)).sparks.length ≤
      (WeldingSpark.mk 0 1 (6/1000) 0 ⟨0, 0, 0⟩ 2 [] 0 1).capacity :=
  have h : (WeldingSpark.mk 0 1 (6/1000) 0 ⟨0, 0, 0⟩ 2 [] 0 1).sparks.length ≤
      (WeldingSpark.mk 0 1 (6/1000) 0 ⟨0, 0, 0⟩ 2 [] 0 1).capacity :=
    Nat.zero_le _
  ⟨h, ((claim_C4_pool_capacity defaultParams probePath).2.1
    [SparkOp.emit (1/2) [SparkRand.mk ⟨1, 0, 0⟩ (1/2)]] _ h).2⟩

/-- Helper: a surviving spark emerges from the per-slot update with
positive remaining life. -/
theorem updateSparkData_some_life (d : ℚ) (s s2 : Spark)
    (h : updateSparkData d s = some s2) : 0 < s2.life := by
  simp only [updateSparkData] at h
  split at h
  · next hpos =>
    injection h with h2
    subst h2
    exact hpos
  · next => cases h

/-- Helper: the expiry loop's compaction is stable — the compacted live
prefix is a sublist (in order) of the list obtained by updating every slot
in place. -/
theorem stableCompactFrom_sublist (ds : ℕ → ℚ) :
    ∀ (i : ℕ) (l : List Spark),
      (stableCompactFrom ds i l).Sublist (specUpdateSlots ds i l) := by
  intro i l
  induction l generalizing i with
  | nil => simp [stableCompactFrom, specUpdateSlots]
  | cons s rest ih =>
    by_cases hpos : s.life - (3/100 + ds i * 2/100) > 0
    · simp only [stableCompactFrom, specUpdateSlots, updateSparkData,
        if_pos hpos]
      exact List.Sublist.cons₂ _ (ih (i + 1))
    · simp only [stableCompactFrom, specUpdateSlots, updateSparkData,
        if_neg hpos]
      exact List.Sublist.cons _ (ih (i + 1))

/-- Helper: every spark in the compacted prefix is live. -/
theorem stableCompactFrom_live (ds : ℕ → ℚ) :
    ∀ (i : ℕ) (l : List Spark) (s : Spark),
      s ∈ stableCompactFrom ds i l → 0 < s.life := by
  intro i l
  induction l generalizing i with
  | nil => intro s hs; simp [stableCompactFrom] at hs
  | cons s0 rest ih =>
    intro s hs
    simp only [stableCompactFrom] at hs
    split at hs
    · next s2 heq =>
      rcases List.mem_cons.mp hs with rfl | htail
      · exact updateSparkData_some_life _ _ _ heq
      · exact ih (i + 1) s htail
    · next => exact ih (i + 1) s hs

/-- Helper: one swap-compaction step on an expired head slot. -/
theorem specSwapCompactAux_dead (s : Spark) (rest : List Spark)
    (h : s.life ≤ 0) :
    specSwapCompactAux (s :: rest) 0 =
      specSwapCompactAux (swapRemoveAt (s :: rest) 0) 0 := by
  rw [specSwapCompactAux]
  simp only [List.length_cons, List.get]
  rw [dif_pos (Nat.succ_pos rest.length), if_pos h]

/-- Helper: the swap-compaction scan skips a live slot. -/
theorem specSwapCompactAux_skip (l : List Spark) (i : ℕ)
    (h : i < l.length) (hlive : ¬ (l.get ⟨i, h⟩).life ≤ 0) :
    specSwapCompactAux l i = specSwapCompactAux l (i + 1) := by
  rw [specSwapCompactAux]
  rw [dif_pos h, if_neg hlive]

/-- Helper: the swap-compaction scan stops past the end of the pool. -/
theorem specSwapCompactAux_done (l : List Spark) (i : ℕ)
    (h : ¬ i < l.length) : specSwapCompactAux l i = l := by
  rw [specSwapCompactAux]
  rw [dif_neg h]

set_option maxRecDepth 8000 in
/-- Counterexample for C5: a pool `[A, B, C]` in which only `A` expires.
The source's compaction shifts the survivors forward in order, producing
`[B', C']`, while the spec's swap-compaction would move the last live slot
into the freed slot 0, producing `[C', B']`; the two disagree. -/
theorem claim_C5_counterexample :
    (WeldingSpark.update defaultParams probePath ⟨1/2, 1/2, 1/2⟩ 0 0 []
        (fun _ => 0)
        (WeldingSpark.mk 0 1 (6/1000) 0 ⟨0, 0, 0⟩ 2
          [Spark.mk ⟨0, 0, 0⟩ 1 (2/100) ⟨0, 0, 0⟩,
           Spark.mk ⟨1, 0, 0⟩ 1 1 ⟨0, 0, 0⟩,
           Spark.mk ⟨2, 0, 0⟩ 1 1 ⟨0, 0, 0⟩] 3 1)).sparks =
      [Spark.mk ⟨1, -1/1000, 0⟩ (98/100) (97/100) ⟨0, -1/1000, 0⟩,
       Spark.mk ⟨2, -1/1000, 0⟩ (98/100) (97/100) ⟨0, -1/1000, 0⟩] ∧
    specSwapCompact (fun _ => 0)
        [Spark.mk ⟨0, 0, 0⟩ 1 (2/100) ⟨0, 0, 0⟩,
         Spark.mk ⟨1, 0, 0⟩ 1 1 ⟨0, 0, 0⟩,
         Spark.mk ⟨2, 0, 0⟩ 1 1 ⟨0, 0, 0⟩] =
      [Spark.mk ⟨2, -1/1000, 0⟩ (98/100) (97/100) ⟨0, -1/1000, 0⟩,
       Spark.mk ⟨1, -1/1000, 0⟩ (98/100) (97/100) ⟨0, -1/1000, 0⟩] ∧
    ¬ ([Spark.mk ⟨1, -1/1000, 0⟩ (98/100) (97/100) ⟨0, -1/1000, 0⟩,
        Spark.mk ⟨2, -1/1000, 0⟩ (98/100) (97/100) ⟨0, -1/1000, 0⟩] =
       [Spark.mk ⟨2, -1/1000, 0⟩ (98/100) (97/100) ⟨0, -1/1000, 0⟩,
        Spark.mk ⟨1, -1/1000, 0⟩ (98/100) (97/100) ⟨0, -1/1000, 0⟩]) := by
  refine ⟨?_, ?_, ?_⟩
  · norm_num [WeldingSpark.update, WeldingSpark.emitSparks, defaultParams,
      stableCompact, stableCompactFrom, updateSparkData, Vec3.add]
  · have hupd : specUpdateSlots (fun _ => 0) 0
        [Spark.mk ⟨0, 0, 0⟩ 1 (2/100) ⟨0, 0, 0⟩,
         Spark.mk ⟨1, 0, 0⟩ 1 1 ⟨0, 0, 0⟩,
         Spark.mk ⟨2, 0, 0⟩ 1 1 ⟨0, 0, 0⟩] =
        [Spark.mk ⟨0, 0, 0⟩ 1 (-1/100) ⟨0, 0, 0⟩,
         Spark.mk ⟨1, -1/1000, 0⟩ (98/100) (97/100) ⟨0, -1/1000, 0⟩,
         Spark.mk ⟨2, -1/1000, 0⟩ (98/100) (97/100) ⟨0, -1/1000, 0⟩] := by
      norm_num [specUpdateSlots, Vec3.add]
    rw [specSwapCompact, hupd]
    rw [specSwapCompactAux_dead _ _ (by norm_num)]
    have hswap : swapRemoveAt
        [Spark.mk ⟨0, 0, 0⟩ 1 (-1/100) ⟨0, 0, 0⟩,
         Spark.mk ⟨1, -1/1000, 0⟩ (98/100) (97/100) ⟨0, -1/1000, 0⟩,
         Spark.mk ⟨2, -1/1000, 0⟩ (98/100) (97/100) ⟨0, -1/1000, 0⟩] 0 =
        [Spark.mk ⟨2, -1/1000, 0⟩ (98/100) (97/100) ⟨0, -1/1000, 0⟩,
         Spark.mk ⟨1, -1/1000, 0⟩ (98/100) (97/100) ⟨0, -1/1000, 0⟩] := by
      simp [swapRemoveAt]
    rw [hswap]
    rw [specSwapCompactAux_skip _ 0 (by norm_num) (by norm_num [List.get])]
    rw [specSwapCompactAux_skip _ 1 (by norm_num) (by norm_num [List.get])]
    exact specSwapCompactAux_done _ 2 (by norm_num)
  · intro hcontra
    simp only [List.cons.injEq, Spark.mk.injEq, Vec3.mk.injEq] at hcontra
    norm_num at hcontra

/-- Claim C5 (amended): the spark-expiry loop compacts by copying each
surviving slot forward to the next free index, a stable compaction that
preserves the order of the live sparks (the compacted prefix is an
in-order sublist of the in-place-updated slot list, not the spec's
order-losing swap of the last live slot into the freed index); after every
update the live sparks are exactly the compacted prefix — positive
remaining life, no longer than the pre-update pool — and the draw range
exposed to the renderer equals that prefix length. -/
theorem claim_C5_stable_compaction :
    (∀ (ps : Params) (path : CurvePath) (r : Vec3) (g c : ℚ)
      (rs : List SparkRand) (ds : ℕ → ℚ) (p : WeldingSpark),
      (p.update ps path r g c rs ds).drawRange =
        (p.update ps path r g c rs ds).sparks.length) ∧
    (∀ (ds : ℕ → ℚ) (l : List Spark),
      (stableCompact ds l).Sublist (specUpdateSlots ds 0 l)) ∧
    (∀ (ds : ℕ → ℚ) (l : List Spark) (s : Spark),
      s ∈ stableCompact ds l → 0 < s.life) ∧
    (∀ (ds : ℕ → ℚ) (l : List Spark),
      (stableCompact ds l).length ≤ l.length) := by
  refine ⟨?_, ?_, ?_, ?_⟩
  · intro ps path r g c rs ds p
    rfl
  · intro ds l
    exact stableCompactFrom_sublist ds 0 l
  · intro ds l s hs
    exact stableCompactFrom_live ds 0 l s hs
  · intro ds l
    exact stableCompactFrom_length_le ds 0 l

/-- Counterexample for C2: a comet on an open path whose post-update
`currentT = 0.95` lies past the fade-out start `1 - fadeOut = 0.8` of the
source's configuration.  The comet manager writes the plain lifecycle
alpha 1 into the uniform, while the open-path seam correction (as the glow
manager applies it) would give `1 · (1 - 0.75) = 1/4`. -/
theorem claim_C2_counterexample :
    (cometSystemUpdateParticle defaultParams openProbePath ⟨1/2, 1/2, 1/2⟩
      (Comet.mk (189/200) 1 (5/1000) 0 ⟨0, 0, 0⟩ 0 ⟨0, 0, 0⟩ [] [] 0
        1)).lifecycleAlpha = 1 ∧
    (Comet.update defaultParams openProbePath ⟨1/2, 1/2, 1/2⟩
      (Comet.mk (189/200) 1 (5/1000) 0 ⟨0, 0, 0⟩ 0 ⟨0, 0, 0⟩ [] [] 0
        1)).currentT = 19/20 ∧
    openProbePath.closed = false ∧
    (19/20 : ℚ) > 1 - defaultParams.lifecycle.fadeOutTime ∧
    calculateLifecycleAlpha defaultParams 0 (19/20) *
      (1 - ((19/20 : ℚ) - (1 - defaultParams.lifecycle.fadeOutTime)) /
        defaultParams.lifecycle.fadeOutTime) = 1/4 ∧
    (1 : ℚ) ≠ 1/4 := by
  refine ⟨?_, ?_, rfl, ?_, ?_, by norm_num⟩
  · norm_num [cometSystemUpdateParticle, Comet.update, cometTailGeometry,
      defaultParams, calculateLifecycleAlpha, lifecycleAlphaAt, jsMod,
      jsTrunc, Vec3.add, openProbePath]
  · norm_num [Comet.update, defaultParams, cometTailGeometry, Vec3.add,
      openProbePath]
  · norm_num [defaultParams]
  · norm_num [calculateLifecycleAlpha, lifecycleAlphaAt, jsMod, jsTrunc,
      defaultParams]

/-- Claim C2 (amended): only the glow manager applies the open-path seam
correction on top of the lifecycle alpha — past `1 - fadeOut` the uniform
ramps toward 0, immediately after a wrap-reset it ramps up from 0 over the
first `fadeIn` fraction of `currentT`, and the reset flag is cleared once
`currentT` leaves the fade-in window, so the correction applies at most
once per loop.  The spark and comet managers write the plain
`calculateLifecycleAlpha` value with no seam correction. -/
theorem claim_C2_open_path_seam_correction (ps : Params) (path : CurvePath)
    (hEn : ps.lifecycle.enabled = true) (hOpen : path.closed = false) :
    (∀ (r : Vec3) (p : GlowParticle),
      glowSystemUpdateParticle ps path r p =
        glowApplyLifecycle ps path (GlowParticle.update ps path r p)) ∧
    (∀ q : GlowParticle, q.currentT > 1 - ps.lifecycle.fadeOutTime →
      (glowApplyLifecycle ps path q).uLifecycleAlpha =
        calculateLifecycleAlpha ps q.lifecycleOffset q.currentT *
          (1 - (q.currentT - (1 - ps.lifecycle.fadeOutTime)) /
            ps.lifecycle.fadeOutTime)) ∧
    (∀ q : GlowParticle, ¬ q.currentT > 1 - ps.lifecycle.fadeOutTime →
      q.justReset = true → q.currentT < ps.lifecycle.fadeInTime →
      (glowApplyLifecycle ps path q).uLifecycleAlpha =
        calculateLifecycleAlpha ps q.lifecycleOffset q.currentT *
          (q.currentT / ps.lifecycle.fadeInTime)) ∧
    (∀ q : GlowParticle, ¬ q.currentT > 1 - ps.lifecycle.fadeOutTime →
      q.justReset = true → ¬ q.currentT < ps.lifecycle.fadeInTime →
      (glowApplyLifecycle ps path q).justReset = false ∧
      (glowApplyLifecycle ps path q).uLifecycleAlpha =
        calculateLifecycleAlpha ps q.lifecycleOffset q.currentT) ∧
    (∀ (r : Vec3) (g c : ℚ) (rs : List SparkRand) (ds : ℕ → ℚ)
      (p : WeldingSpark),
      (sparkSystemUpdateParticle ps path r g c rs ds p).lifecycleAlpha =
        calculateLifecycleAlpha ps
          (p.update ps path r g c rs ds).lifecycleOffset
          (p.update ps path r g c rs ds).currentT) ∧
    (∀ (r : Vec3) (p : Comet),
      (cometSystemUpdateParticle ps path r p).lifecycleAlpha =
        calculateLifecycleAlpha ps (p.update ps path r).lifecycleOffset
          (p.update ps path r).currentT) := by
  refine ⟨?_, ?_, ?_, ?_, ?_, ?_⟩
  · intro r p
    rfl
  · intro q h
    simp only [glowApplyLifecycle, hEn, hOpen, if_true, gt_iff_lt] at *
    rw [if_pos h]
  · intro q h1 h2 h3
    simp only [glowApplyLifecycle, hEn, hOpen, if_true, gt_iff_lt] at *
    rw [if_neg h1, if_pos (by exact ⟨by simp [h2], h3⟩)]
    split
    · rfl
    · rfl
  · intro q h1 h2 h3
    simp only [glowApplyLifecycle, hEn, hOpen, if_true, gt_iff_lt] at *
    rw [if_neg h1, if_neg (by intro hc; exact h3 hc.2), if_pos (by simp [h2])]
    exact ⟨rfl, rfl⟩
  · intro r g c rs ds p
    simp only [sparkSystemUpdateParticle, hEn, if_true]
  · intro r p
    simp only [cometSystemUpdateParticle, hEn, if_true]

/-- Witness for C2: the amended conjunction holds at the source's `params`
literal on the open probe curve; shown here for the glow decomposition and
the comet manager's plain alpha. -/
theorem claim_C2_witness :
    defaultParams.lifecycle.enabled = true ∧
    openProbePath.closed = false ∧
    (∀ (r : Vec3) (p : GlowParticle),
      glowSystemUpdateParticle defaultParams openProbePath r p =
        glowApplyLifecycle defaultParams openProbePath
          (GlowParticle.update defaultParams openProbePath r p)) ∧
    (∀ (r : Vec3) (p : Comet),
      (cometSystemUpdateParticle defaultParams openProbePath r
        p).lifecycleAlpha =
        calculateLifecycleAlpha defaultParams
          (p.update defaultParams openProbePath r).lifecycleOffset
          (p.update defaultParams openProbePath r).currentT) := by
  obtain ⟨h1, -, -, -, -, h6⟩ :=
    claim_C2_open_path_seam_correction defaultParams openProbePath rfl rfl
  exact ⟨rfl, rfl, h1, h6⟩

/-- Helper: `Math.floor(r * len)` is a valid palette index for a raw
random draw `r ∈ [0, 1)`. -/
theorem paletteIndex_lt (len : ℕ) (r : ℚ) (hlen : 0 < len)
    (h0 : 0 ≤ r) (h1 : r < 1) : (⌊r * (len : ℚ)⌋).toNat < len := by
  have hlenq : (0 : ℚ) < len := by exact_mod_cast hlen
  have hup : r * (len : ℚ) < len := by nlinarith
  have hfl : ⌊r * (len : ℚ)⌋ < (len : ℤ) := Int.floor_lt.mpr (by
    exact_mod_cast hup)
  have hnn : 0 ≤ ⌊r * (len : ℚ)⌋ := Int.floor_nonneg.mpr (by positivity)
  omega

/-- Helper: the palette pick is uniform — slot `k` is chosen exactly on
the sub-interval `[k/len, (k+1)/len)` of the unit interval. -/
theorem paletteIndex_eq (len k : ℕ) (r : ℚ) (hk : k < len)
    (hlo : (k : ℚ) / len ≤ r) (hhi : r < ((k : ℚ) + 1) / len) :
    (⌊r * (len : ℚ)⌋).toNat = k := by
  have hlenq : (0 : ℚ) < len := by
    have : 0 < len := by omega
    exact_mod_cast this
  have hlo2 : (k : ℚ) ≤ r * len := by
    rw [div_le_iff hlenq] at hlo
    linarith
  have hhi2 : r * (len : ℚ) < (k : ℚ) + 1 := by
    rw [lt_div_iff hlenq] at hhi
    linarith
  have hfl : ⌊r * (len : ℚ)⌋ = (k : ℤ) := by
    rw [Int.floor_eq_iff]
    constructor
    · exact_mod_cast hlo2
    · push_cast
      linarith
  rw [hfl]
  exact Int.toNat_natCast k

/-- Helper: in palette mode (dark theme, non-empty enabled set), the glow
color assignment picks an enabled palette color. -/
theorem setParticleColor_palette_mem (ps : Params) (r : ℚ)
    (hTheme : ¬ ps.currentTheme = "light") (hMode : ps.colorMode = "palette")
    (h0 : 0 ≤ r) (h1 : r < 1) (hne : activePalette ps ≠ []) :
    setParticleColor ps r ∈ (activePalette ps).map JsColor.hex := by
  have hlen : 0 < (activePalette ps).length := List.length_pos.mpr hne
  simp only [setParticleColor, hMode, if_neg hTheme]
  rw [if_pos hlen]
  apply List.mem_map_of_mem JsColor.hex
  have hidx := paletteIndex_lt _ r hlen h0 h1
  rw [List.getD_eq_getElem _ _ hidx]
  exact List.getElem_mem hidx

/-- Counterexample for C9: with no palette color enabled, the comet
variant's palette mode falls back to the configured `cometColor`, not to a
fixed neutral color — two configurations identical except for `cometColor`
get different fallback colors. -/
theorem claim_C9_counterexample :
    setCometColor
      { defaultParams with
        comet := { defaultParams.comet with colorMode := "palette" },
        paletteColor1Enabled := false, paletteColor2Enabled := false,
        paletteColor3Enabled := false, paletteColor4Enabled := false,
        paletteColor5Enabled := false } (1/2) = JsColor.hex "#80ffff" ∧
    setCometColor
      { defaultParams with
        comet := { defaultParams.comet with
                   colorMode := "palette", cometColor := "#123456" },
        paletteColor1Enabled := false, paletteColor2Enabled := false,
        paletteColor3Enabled := false, paletteColor4Enabled := false,
        paletteColor5Enabled := false } (1/2) = JsColor.hex "#123456" ∧
    JsColor.hex "#80ffff" ≠ JsColor.hex "#123456" := by
  refine ⟨?_, ?_, by simp⟩ <;>
    simp [setCometColor, activePalette, defaultParams]

/-- Claim C9 (amended): in palette mode with a dark theme, a particle is
only ever assigned one of the currently enabled palette colors, and the
pick is uniform — slot `k` of the enabled list is chosen exactly when the
raw draw lies in `[k/len, (k+1)/len)`; with only palette colors 1 and 3
enabled the assignment is always color 1 or color 3.  When no palette
color is enabled, the glow variant falls back to the fixed neutral
`#ffffff`, but the comet variant falls back to the configured
`cometColor` (not a fixed neutral color). -/
theorem claim_C9_palette_pick (ps : Params) (r : ℚ)
    (hTheme : ¬ ps.currentTheme = "light") (h0 : 0 ≤ r) (h1 : r < 1) :
    (ps.colorMode = "palette" → activePalette ps ≠ [] →
      setParticleColor ps r ∈ (activePalette ps).map JsColor.hex) ∧
    (ps.colorMode = "palette" → ∀ k : ℕ, k < (activePalette ps).length →
      (k : ℚ) / (activePalette ps).length ≤ r →
      r < ((k : ℚ) + 1) / (activePalette ps).length →
      setParticleColor ps r =
        JsColor.hex ((activePalette ps).getD k "#ffffff")) ∧
    (ps.colorMode = "palette" → activePalette ps = [] →
      setParticleColor ps r = JsColor.hex "#ffffff") ∧
    (ps.comet.colorMode = "palette" → activePalette ps ≠ [] →
      setCometColor ps r ∈ (activePalette ps).map JsColor.hex) ∧
    (ps.comet.colorMode = "palette" → activePalette ps = [] →
      setCometColor ps r = JsColor.hex ps.comet.cometColor) ∧
    (ps.colorMode = "palette" →
      ps.paletteColor1Enabled = true → ps.paletteColor2Enabled = false →
      ps.paletteColor3Enabled = true → ps.paletteColor4Enabled = false →
      ps.paletteColor5Enabled = false →
      (setParticleColor ps r = JsColor.hex ps.paletteColor1 ∨
       setParticleColor ps r = JsColor.hex ps.paletteColor3)) := by
  refine ⟨?_, ?_, ?_, ?_, ?_, ?_⟩
  · intro hMode hne
    exact setParticleColor_palette_mem ps r hTheme hMode h0 h1 hne
  · intro hMode k hk hlo hhi
    have hlen : 0 < (activePalette ps).length := by omega
    simp only [setParticleColor, hMode, if_neg hTheme]
    rw [if_pos hlen, paletteIndex_eq _ k r hk hlo hhi]
  · intro hMode hempty
    simp only [setParticleColor, hMode, if_neg hTheme]
    rw [hempty]
    simp
  · intro hCMode hne
    have hlen : 0 < (activePalette ps).length := List.length_pos.mpr hne
    simp only [setCometColor, hCMode, if_neg hTheme]
    rw [if_pos hlen]
    apply List.mem_map_of_mem JsColor.hex
    have hidx := paletteIndex_lt _ r hlen h0 h1
    rw [List.getD_eq_getElem _ _ hidx]
    exact List.getElem_mem hidx
  · intro hCMode hempty
    simp only [setCometColor, hCMode, if_neg hTheme]
    rw [hempty]
    simp
  · intro hMode h1e h2e h3e h4e h5e
    have hap : activePalette ps = [ps.paletteColor1, ps.paletteColor3] := by
      simp [activePalette, h1e, h2e, h3e, h4e, h5e]
    have hmem := setParticleColor_palette_mem ps r hTheme hMode h0 h1
      (by rw [hap]; simp)
    rw [hap] at hmem
    simp only [List.map_cons, List.map_nil, List.mem_cons,
      List.not_mem_nil, or_false] at hmem
    exact hmem

/-- Witness for C9: the source's `params` literal with palette colors 2, 4
and 5 disabled (colors 1 and 3 enabled, palette mode, dark theme) always
assigns color 1 or color 3 at the concrete draw `r = 1/2`. -/
theorem claim_C9_witness :
    ¬ ({ defaultParams with
          paletteColor2Enabled := false, paletteColor4Enabled := false,
          paletteColor5Enabled := false } : Params).currentTheme = "light" ∧
    (0 : ℚ) ≤ 1/2 ∧ (1/2 : ℚ) < 1 ∧
    (setParticleColor
        { defaultParams with
          paletteColor2Enabled := false, paletteColor4Enabled := false,
          paletteColor5Enabled := false } (1/2) =
      JsColor.hex ({ defaultParams with
          paletteColor2Enabled := false, paletteColor4Enabled := false,
          paletteColor5Enabled := false } : Params).paletteColor1 ∨
     setParticleColor
        { defaultParams with
          paletteColor2Enabled := false, paletteColor4Enabled := false,
          paletteColor5Enabled := false } (1/2) =
      JsColor.hex ({ defaultParams with
          paletteColor2Enabled := false, paletteColor4Enabled := false,
          paletteColor5Enabled := false } : Params).paletteColor3) := by
  obtain ⟨-, -, -, -, -, h6⟩ := claim_C9_palette_pick
    { defaultParams with
      paletteColor2Enabled := false, paletteColor4Enabled := false,
      paletteColor5Enabled := false } (1/2)
    (by simp [defaultParams]) (by norm_num) (by norm_num)
  exact ⟨by simp [defaultParams], by norm_num, by norm_num,
    h6 rfl rfl rfl rfl rfl rfl⟩
